import Mathlib

/-!
Shallow embedding of the `img_upload_s3` migration script.

The repository holds two near-duplicate variants of the same script:
* variant A (`src/index.js`): raw MongoDB driver, cursor over `find({})`,
  per-item deterministic fallback URL;
* variant B (`src/unnamed/part_000`): mongoose aggregation pipeline with
  `$skip: 101` and a `$project` of `_id`, `restaurantId`, `items`, and a
  shared static placeholder fallback URL.

JavaScript values are modelled as follows: a possibly-absent string field
(`item.id`, `item.image`, `doc.restaurantId`) is an `Option String`
(`none` for `undefined`/`null`/absent); JS template-literal stringification
of such a field is `jsShow` (`undefined` prints as `"undefined"`); JS
truthiness of such a field is `truthy` (absent and `""` are falsy).
The external world (HTTP fetch, S3 put, Mongo update) is an oracle `Env`
giving each call's outcome; the mutable state touched by the script
(S3 objects, the log of HTTP fetches, the collection, console warnings and
errors) is a `World`. A thrown JS exception is an `Option`/`Bool` result.
-/

/-- The constant `BUCKET_NAME = 'gobbl-restaurant-images-bucket'` (both variants). -/
def BUCKET_NAME : String := "gobbl-restaurant-images-bucket"

/-- The constant `REGION = 'ap-south-1'` (both variants). -/
def REGION : String := "ap-south-1"

/-- The shared static placeholder URL of variant B (part_000 lines 82, 87). -/
def PLACEHOLDER_URL : String :=
  "https://gobbl-restaurant-images-bucket.s3.ap-south-1.amazonaws.com/landscape-placeholder-svgrepo-co.jpg"

/-- One menu item: an `id`, an `image` URL, and the remaining fields
(modelled as an association list, preserved through the rewrite). -/
structure Item where
  id : Option String
  image : Option String
  other : List (String × String)
deriving DecidableEq

/-- One restaurant-menu document: `_id`, `restaurantId`, `items`
(`none` when the stored value is not an array), and any further fields
(dropped by variant B's `$project`). -/
structure Doc where
  _id : String
  restaurantId : Option String
  items : Option (List Item)
  extra : List (String × String)
deriving DecidableEq

/-- One stored S3 object, as put by `s3.putObject`. -/
structure S3Object where
  bucket : String
  key : String
  body : List Nat
  contentType : String
deriving DecidableEq

/-- The external side-effect state the script writes: S3 objects and the
trace of HTTP GET requests issued by `axios.get`. -/
structure Store where
  objects : List S3Object
  fetchLog : List String
deriving DecidableEq

/-- Oracle for the outcomes of external calls: `fetch url` is the bytes
`axios.get url` returns (`none`: the fetch throws), `putOk key` is whether
`s3.putObject` at `key` succeeds, `updateOk docId` is whether the Mongo
update of document `docId` succeeds. -/
structure Env where
  fetch : String → Option (List Nat)
  putOk : String → Bool
  updateOk : String → Bool

/-- JS template-literal stringification of a possibly-absent value:
`undefined` prints as the literal text `"undefined"`. -/
def jsShow : Option String → String
  | none => "undefined"
  | some s => s

/-- JS truthiness of a possibly-absent string: `undefined`, `null` and the
empty string are falsy. -/
def truthy : Option String → Bool
  | none => false
  | some s => !(s == "")

/-- The storage key `${restaurantId}/${restaurantId}-${itemId}.jpg`
(index.js line 39, part_000 line 46). -/
def s3Key (restaurantId itemId : String) : String :=
  restaurantId ++ "/" ++ restaurantId ++ "-" ++ itemId ++ ".jpg"

/-- The public URL `https://${BUCKET_NAME}.s3.${REGION}.amazonaws.com/${key}`
(index.js line 48, part_000 line 55). -/
def s3Url (key : String) : String :=
  "https://" ++ BUCKET_NAME ++ ".s3." ++ REGION ++ ".amazonaws.com/" ++ key

/-- The model of `s3.putObject`: stores the object at its bucket/key, overwriting any
existing object there. -/
def putObject (objs : List S3Object) (o : S3Object) : List S3Object :=
  objs.filter (fun x => !(x.bucket == o.bucket && x.key == o.key)) ++ [o]

/-- The function `uploadImageToS3(restaurantId, itemId, imageUrl)` (index.js 34-53,
part_000 41-60): fetch the URL's bytes, put them at
`{restaurantId}/{restaurantId}-{itemId}.jpg` with content type
`image/jpeg`, return the public URL. `none` as second component: the
function threw (fetch or put failed); the fetch attempt is logged in
`fetchLog` either way, since `axios.get` is always the first call. -/
def uploadImageToS3 (env : Env) (st : Store) (restaurantId itemId imageUrl : String) :
    Store × Option String :=
  let st1 : Store := { st with fetchLog := st.fetchLog ++ [imageUrl] }
  match env.fetch imageUrl with
  | none => (st1, none)
  | some bytes =>
    let key := s3Key restaurantId itemId
    if env.putOk key then
      ({ st1 with objects := putObject st1.objects ⟨BUCKET_NAME, key, bytes, "image/jpeg"⟩ },
       some (s3Url key))
    else (st1, none)

/-- The two observed script variants, differing only in fallback-URL
policy and driver iteration. -/
inductive Variant
  | A
  | B
deriving DecidableEq

/-- The fallback URL substituted when the item has no image or relocation
throws: variant A (index.js 75, 80) builds the item-specific deterministic
URL; variant B (part_000 82, 87) uses the shared placeholder. -/
def fallbackUrl : Variant → String → Option String → String
  | .A, rid, itemId => s3Url (s3Key rid (jsShow itemId))
  | .B, _, _ => PLACEHOLDER_URL

/-- The loop body of `processDocument` for one item (index.js 69-83,
part_000 76-90): if `item.image` is truthy, try the relocation and on a
thrown error substitute the fallback; otherwise use the fallback directly
with no fetch. The new item is `{ ...item, image: newUrl }`. -/
def processItem (v : Variant) (env : Env) (st : Store) (rid : String) (item : Item) :
    Store × Item :=
  match item.image with
  | some s =>
    if s == "" then
      (st, { item with image := some (fallbackUrl v rid item.id) })
    else
      match uploadImageToS3 env st rid (jsShow item.id) s with
      | (st1, some url) => (st1, { item with image := some url })
      | (st1, none) => (st1, { item with image := some (fallbackUrl v rid item.id) })
  | none => (st, { item with image := some (fallbackUrl v rid item.id) })

/-- The loop `for (const item of doc.items)`, pushing each updated item:
left-to-right processing of the items, threading the store. -/
def processItems (v : Variant) (env : Env) (st : Store) (rid : String) :
    List Item → Store × List Item
  | [] => (st, [])
  | item :: rest =>
    let p := processItem v env st rid item
    let q := processItems v env p.1 rid rest
    (q.1, p.2 :: q.2)

/-- The model of `collection.updateOne` with a `$set` of `items` (variant A)
and `RestaurantMenu.findOneAndUpdate` (variant B): replace the `items` field of the
first document whose `_id` matches; all other fields and documents are
untouched. -/
def updateFirst (coll : List Doc) (docId : String) (newItems : List Item) : List Doc :=
  match coll with
  | [] => []
  | d :: ds =>
    if d._id == docId then { d with items := some newItems } :: ds
    else d :: updateFirst ds docId newItems

/-- The `console.warn` message of the document-shape skip (index.js 64). -/
def skipWarnMsg (docId : String) : String :=
  "Skipping document " ++ docId ++ " due to missing restaurantId or items."

/-- The `console.error` message of the driver catch of one document
(index.js 104, part_000 116). -/
def docErrMsg (docId : String) : String :=
  "Error processing document " ++ docId

/-- Everything the script mutates: the external store, the collection,
and the recorded warnings and per-document errors. -/
structure World where
  store : Store
  coll : List Doc
  warnings : List String
  errors : List String
deriving DecidableEq

/-- The function `processDocument(doc)` (index.js 61-87, part_000 68-94): skip with a
warning when `restaurantId` is falsy or `items` is not an array; otherwise
build the new items and persist them with one update. The `Bool` is
whether the document update threw (the only uncaught throw inside
`processDocument`, propagated to the driver's catch). -/
def processDocument (v : Variant) (env : Env) (w : World) (doc : Doc) : World × Bool :=
  match doc.items, truthy doc.restaurantId with
  | some l, true =>
    let rid := jsShow doc.restaurantId
    let p := processItems v env w.store rid l
    if env.updateOk doc._id then
      ({ w with store := p.1, coll := updateFirst w.coll doc._id p.2 }, false)
    else
      ({ w with store := p.1 }, true)
  | _, _ =>
    ({ w with warnings := w.warnings ++ [skipWarnMsg doc._id] }, false)

/-- The driver's loop body (index.js 101-105, part_000 113-117):
`try { await processDocument(doc) } catch (e) { console.error(...) }` —
a thrown error is logged and swallowed. -/
def driverStep (v : Variant) (env : Env) (w : World) (doc : Doc) : World :=
  let p := processDocument v env w doc
  if p.2 then { p.1 with errors := p.1.errors ++ [docErrMsg doc._id] } else p.1

/-- The driver's iteration over the yielded documents
(index.js 99-110, part_000 112-122). -/
def runDriver (v : Variant) (env : Env) (w : World) (docs : List Doc) : World :=
  docs.foldl (driverStep v env) w

/-- Variant B's `$project: { _id: 1, restaurantId: 1, items: 1 }`
(part_000 102-108): keep exactly those fields, drop the rest. -/
def project (d : Doc) : Doc :=
  { d with extra := [] }

/-- Variant B's aggregation pipeline `[{ $skip: 101 }, { $project: ... }]`
(part_000 98-109): the post-skip projected documents the pipeline denotes,
i.e. what the driver was meant to iterate. The driver never actually
receives them — see `variantB_yielded`. -/
def aggregateSkipProject (docs : List Doc) : List Doc :=
  (docs.drop 101).map project

/-- The sequence of documents variant B's driver actually passes to
`processDocument`: at part_000 line 98 `RestaurantMenu.aggregate([...])` is
called without `await`, `.exec()` or `.cursor()`, so `collection` is a
mongoose `Aggregate` object; an `Aggregate` implements no synchronous
iterator, so the synchronous `for (const doc of collection)` at line 112
throws a `TypeError` before yielding a first document, the outer catch at
line 124 logs it, and the updater is never invoked — for every collection
state, no document is passed. -/
def variantB_yielded (_docs : List Doc) : List Doc := []

/-! Concrete fixtures, used to evaluate the theorems on closed inputs
(the end-to-end example document of the specification, §8). -/

/-- An environment where every fetch, put and update succeeds. -/
def envOk : Env :=
  ⟨fun _ => some [7, 7], fun _ => true, fun _ => true⟩

/-- An environment where every fetch throws. -/
def envFail : Env :=
  ⟨fun _ => none, fun _ => true, fun _ => true⟩

/-- An environment where external calls succeed but every document update
throws. -/
def envNoUpdate : Env :=
  ⟨fun _ => some [7, 7], fun _ => true, fun _ => false⟩

/-- The empty store. -/
def store0 : Store := ⟨[], []⟩

/-- The specification's example item `{id: 1, image: "http://ex.com/a.png"}`
with one extra field. -/
def itemW : Item := ⟨some "1", some "http://ex.com/a.png", [("name", "Dosa")]⟩

/-- The specification's example item `{id: 2, image: null}`. -/
def itemNoImage : Item := ⟨some "2", none, []⟩

/-- An item whose `id` is absent. -/
def itemNoId : Item := ⟨none, some "http://ex.com/b.png", []⟩

/-- The specification's example document for restaurant 42. -/
def docW : Doc := ⟨"d1", some "42", some [itemW, itemNoImage], []⟩

/-- A document with a falsy `restaurantId`. -/
def docBad : Doc := ⟨"d2", none, some [], []⟩

/-- A world holding the example document. -/
def world0 : World := ⟨store0, [docW], [], []⟩

/-- A collection of 102 documents, one more than the skip offset: 101
copies of `docBad` followed by `docW`. -/
def coll102 : List Doc := List.replicate 101 docBad ++ [docW]

theorem s3Url_ne_empty (k : String) : s3Url k ≠ "" := by
  intro h
  have hl := congrArg String.length h
  simp [s3Url, String.length_append] at hl
  exact absurd hl.1.1.1.1.1 (by decide)

theorem mem_putObject (objs : List S3Object) (o x : S3Object)
    (h : x ∈ putObject objs o) : x ∈ objs ∨ x = o := by
  unfold putObject at h
  rcases List.mem_append.1 h with h | h
  · exact Or.inl (List.mem_of_mem_filter h)
  · simp at h
    exact Or.inr h

theorem upload_success (env : Env) (st : Store) (rid itemId u : String) (bytes : List Nat)
    (hfetch : env.fetch u = some bytes) (hput : env.putOk (s3Key rid itemId) = true) :
    uploadImageToS3 env st rid itemId u
      = ({ objects := putObject st.objects ⟨BUCKET_NAME, s3Key rid itemId, bytes, "image/jpeg"⟩,
           fetchLog := st.fetchLog ++ [u] },
         some (s3Url (s3Key rid itemId))) := by
  unfold uploadImageToS3
  rw [hfetch]
  simp [hput]

theorem upload_throw_store (env : Env) (st : Store) (rid itemId u : String)
    (h : (uploadImageToS3 env st rid itemId u).2 = none) :
    (uploadImageToS3 env st rid itemId u).1 = { st with fetchLog := st.fetchLog ++ [u] } := by
  unfold uploadImageToS3 at h ⊢
  cases hf : env.fetch u
  · simp
  · rw [hf] at h
    by_cases hp : env.putOk (s3Key rid itemId) = true
    · simp [hp] at h
    · simp [hp]

theorem upload_url_shape (env : Env) (st : Store) (rid itemId u url : String)
    (h : (uploadImageToS3 env st rid itemId u).2 = some url) :
    url = s3Url (s3Key rid itemId) := by
  unfold uploadImageToS3 at h
  cases hf : env.fetch u <;> rw [hf] at h
  · simp at h
  · by_cases hp : env.putOk (s3Key rid itemId) = true
    · simp [hp] at h
      exact h.symm
    · simp [hp] at h

theorem upload_some_store (env : Env) (st : Store) (rid itemId u url : String)
    (h : (uploadImageToS3 env st rid itemId u).2 = some url) :
    ∃ bytes, env.fetch u = some bytes ∧
      (uploadImageToS3 env st rid itemId u).1.objects
        = putObject st.objects ⟨BUCKET_NAME, s3Key rid itemId, bytes, "image/jpeg"⟩ := by
  unfold uploadImageToS3 at h ⊢
  cases hf : env.fetch u <;> rw [hf] at h
  · simp at h
  · by_cases hp : env.putOk (s3Key rid itemId) = true
    · refine ⟨_, rfl, ?_⟩
      simp [hp]
    · simp [hp] at h

theorem processItem_id (v : Variant) (env : Env) (st : Store) (rid : String) (item : Item) :
    (processItem v env st rid item).2.id = item.id := by
  unfold processItem
  cases item.image with
  | none => rfl
  | some s =>
    by_cases hs : (s == "") = true <;> simp [hs]
    cases hu : uploadImageToS3 env st rid (jsShow item.id) s with
    | mk a b => cases b <;> simp

theorem processItem_other (v : Variant) (env : Env) (st : Store) (rid : String) (item : Item) :
    (processItem v env st rid item).2.other = item.other := by
  unfold processItem
  cases item.image with
  | none => rfl
  | some s =>
    by_cases hs : (s == "") = true <;> simp [hs]
    cases hu : uploadImageToS3 env st rid (jsShow item.id) s with
    | mk a b => cases b <;> simp

theorem processItem_image_A (env : Env) (st : Store) (rid : String) (item : Item) :
    (processItem .A env st rid item).2.image = some (s3Url (s3Key rid (jsShow item.id))) := by
  unfold processItem
  cases item.image with
  | none => simp [fallbackUrl]
  | some s =>
    by_cases hs : (s == "") = true <;> simp [hs, fallbackUrl]
    cases hu : uploadImageToS3 env st rid (jsShow item.id) s with
    | mk a b =>
      cases b with
      | none => simp [fallbackUrl]
      | some url =>
        simp
        have := upload_url_shape env st rid (jsShow item.id) s url (by rw [hu])
        exact this

theorem processItem_image_shape (v : Variant) (env : Env) (st : Store) (rid : String)
    (item : Item) :
    ∃ u, (processItem v env st rid item).2.image = some u ∧ u ≠ ""
      ∧ ((∃ i, u = s3Url (s3Key rid i)) ∨ u = PLACEHOLDER_URL) := by
  have hfb : ∀ oid, (∃ i, fallbackUrl v rid oid = s3Url (s3Key rid i)) ∨ fallbackUrl v rid oid = PLACEHOLDER_URL := by
    intro oid
    cases v
    · exact Or.inl ⟨jsShow oid, rfl⟩
    · exact Or.inr rfl
  have hfbne : ∀ oid, fallbackUrl v rid oid ≠ "" := by
    intro oid
    cases v
    · exact s3Url_ne_empty _
    · intro hc
      have hc2 : PLACEHOLDER_URL = "" := hc
      exact absurd hc2 (by decide)
  unfold processItem
  cases item.image with
  | none => exact ⟨fallbackUrl v rid item.id, rfl, hfbne _, hfb _⟩
  | some s =>
    by_cases hs : (s == "") = true
    · simp [hs]
      exact ⟨hfbne _, hfb _⟩
    · simp [hs]
      cases hu : uploadImageToS3 env st rid (jsShow item.id) s with
      | mk a b =>
        cases b with
        | none =>
          simp
          exact ⟨hfbne _, hfb _⟩
        | some url =>
          simp
          have hshape := upload_url_shape env st rid (jsShow item.id) s url (by rw [hu])
          refine ⟨?_, ?_⟩
          · rw [hshape]
            exact s3Url_ne_empty _
          · exact Or.inl ⟨jsShow item.id, hshape⟩

theorem processItem_objects (v : Variant) (env : Env) (st : Store) (rid : String)
    (item : Item) :
    ∀ o ∈ (processItem v env st rid item).1.objects,
      o ∈ st.objects ∨ o.key = s3Key rid (jsShow item.id) := by
  intro o ho
  unfold processItem at ho
  cases him : item.image with
  | none =>
    rw [him] at ho
    exact Or.inl ho
  | some s =>
    rw [him] at ho
    simp at ho
    by_cases hs : s = ""
    · simp [hs] at ho
      exact Or.inl ho
    · simp [hs] at ho
      cases hu : uploadImageToS3 env st rid (jsShow item.id) s with
      | mk a b =>
        rw [hu] at ho
        cases b with
        | none =>
          have ha := upload_throw_store env st rid (jsShow item.id) s (by rw [hu])
          rw [hu] at ha
          simp at ho ha
          rw [ha] at ho
          exact Or.inl ho
        | some url =>
          simp at ho
          obtain ⟨bytes, hfby, hobj⟩ :=
            upload_some_store env st rid (jsShow item.id) s url (by rw [hu])
          rw [hu] at hobj
          simp at hobj
          rw [hobj] at ho
          rcases mem_putObject _ _ _ ho with h | h
          · exact Or.inl h
          · exact Or.inr (by rw [h])

theorem processItems_ids (v : Variant) (env : Env) (rid : String) (l : List Item) :
    ∀ st : Store, ((processItems v env st rid l).2).map Item.id = l.map Item.id := by
  induction l with
  | nil => intro st; rfl
  | cons a as ih =>
    intro st
    simp [processItems, processItem_id, ih]

theorem processItems_images_A (env : Env) (rid : String) (l : List Item) :
    ∀ st : Store, ((processItems .A env st rid l).2).map Item.image
      = l.map (fun it => some (s3Url (s3Key rid (jsShow it.id)))) := by
  induction l with
  | nil => intro st; rfl
  | cons a as ih =>
    intro st
    simp [processItems, processItem_image_A, ih]

theorem processItems_shape (v : Variant) (env : Env) (rid : String) (l : List Item) :
    ∀ (st : Store) (it : Item), it ∈ (processItems v env st rid l).2 →
      ∃ u, it.image = some u ∧ u ≠ ""
        ∧ ((∃ i, u = s3Url (s3Key rid i)) ∨ u = PLACEHOLDER_URL) := by
  induction l with
  | nil =>
    intro st it h
    simp [processItems] at h
  | cons a as ih =>
    intro st it h
    simp [processItems] at h
    rcases h with h | h
    · subst h
      exact processItem_image_shape v env st rid a
    · exact ih _ it h

/-- C1: for every item with a non-empty `image` whose relocation
succeeds, the rewritten `image` equals
`https://{bucket}.s3.{region}.amazonaws.com/{restaurantId}/{restaurantId}-{itemId}.jpg`
with bucket `gobbl-restaurant-images-bucket` and region `ap-south-1`, and
the object is written under exactly the key
`{restaurantId}/{restaurantId}-{itemId}.jpg` with content type
`image/jpeg`. -/
theorem relocation_success_url_and_object (v : Variant) (env : Env) (st : Store)
    (rid : String) (item : Item) (u : String) (bytes : List Nat)
    (himg : item.image = some u) (hne : u ≠ "")
    (hfetch : env.fetch u = some bytes)
    (hput : env.putOk (s3Key rid (jsShow item.id)) = true) :
    (processItem v env st rid item).2.image
        = some ("https://" ++ BUCKET_NAME ++ ".s3." ++ REGION ++ ".amazonaws.com/"
            ++ (rid ++ "/" ++ rid ++ "-" ++ jsShow item.id ++ ".jpg"))
      ∧ BUCKET_NAME = "gobbl-restaurant-images-bucket"
      ∧ REGION = "ap-south-1"
      ∧ S3Object.mk BUCKET_NAME (rid ++ "/" ++ rid ++ "-" ++ jsShow item.id ++ ".jpg")
            bytes "image/jpeg"
          ∈ (processItem v env st rid item).1.objects := by
  have hs : (u == "") = false := by simp [hne]
  have hup := upload_success env st rid (jsShow item.id) u bytes hfetch hput
  refine ⟨?_, rfl, rfl, ?_⟩
  · simp [processItem, himg, hs, hup, s3Url, s3Key]
  · simp [processItem, himg, hs, hup, putObject, s3Key]

/-- Witness for the relocation-success theorem on the specification's
example item of restaurant 42. -/
theorem relocation_success_url_and_object_witness :
    itemW.image = some "http://ex.com/a.png"
      ∧ ("http://ex.com/a.png" : String) ≠ ""
      ∧ envOk.fetch "http://ex.com/a.png" = some [7, 7]
      ∧ envOk.putOk (s3Key "42" (jsShow itemW.id)) = true
      ∧ ((processItem .A envOk store0 "42" itemW).2.image
            = some ("https://" ++ BUCKET_NAME ++ ".s3." ++ REGION ++ ".amazonaws.com/"
                ++ ("42" ++ "/" ++ "42" ++ "-" ++ jsShow itemW.id ++ ".jpg"))
          ∧ BUCKET_NAME = "gobbl-restaurant-images-bucket"
          ∧ REGION = "ap-south-1"
          ∧ S3Object.mk BUCKET_NAME ("42" ++ "/" ++ "42" ++ "-" ++ jsShow itemW.id ++ ".jpg")
                [7, 7] "image/jpeg"
              ∈ (processItem .A envOk store0 "42" itemW).1.objects) :=
  ⟨rfl, by decide, rfl, rfl,
    relocation_success_url_and_object .A envOk store0 "42" itemW "http://ex.com/a.png" [7, 7]
      rfl (by decide) rfl rfl⟩

/-- C2: a document whose `restaurantId` is falsy or whose `items` is
not a sequence is skipped: the world is unchanged except for one recorded
warning, the collection (and so the stored document) is untouched, and
nothing is thrown. -/
theorem invalid_doc_skipped (v : Variant) (env : Env) (w : World) (doc : Doc)
    (h : truthy doc.restaurantId = false ∨ doc.items = none) :
    processDocument v env w doc
      = ({ w with warnings := w.warnings ++ [skipWarnMsg doc._id] }, false) := by
  unfold processDocument
  rcases h with h | h
  · rw [h]
    cases doc.items <;> rfl
  · rw [h]

/-- Witness for the skip theorem on a document with an absent
`restaurantId`. -/
theorem invalid_doc_skipped_witness :
    (truthy docBad.restaurantId = false ∨ docBad.items = none)
      ∧ processDocument .A envOk world0 docBad
          = ({ world0 with warnings := world0.warnings ++ [skipWarnMsg docBad._id] }, false) :=
  ⟨Or.inl rfl, invalid_doc_skipped .A envOk world0 docBad (Or.inl rfl)⟩

/-- C3: for every item with a non-empty `image` whose relocation
throws, the error is caught, the new `image` equals the configured
fallback (variant A: the item-specific deterministic URL; variant B: the
shared placeholder), no new storage object is written for that item, and
the remaining items of the document are still processed. -/
theorem relocation_failure_fallback (v : Variant) (env : Env) (st : Store)
    (rid : String) (item : Item) (u : String) (rest : List Item)
    (himg : item.image = some u) (hne : u ≠ "")
    (hthrow : (uploadImageToS3 env st rid (jsShow item.id) u).2 = none) :
    processItem v env st rid item
        = ({ st with fetchLog := st.fetchLog ++ [u] },
           { item with image := some (fallbackUrl v rid item.id) })
      ∧ ({ st with fetchLog := st.fetchLog ++ [u] } : Store).objects = st.objects
      ∧ fallbackUrl .A rid item.id = s3Url (s3Key rid (jsShow item.id))
      ∧ fallbackUrl .B rid item.id = PLACEHOLDER_URL
      ∧ processItems v env st rid (item :: rest)
          = ((processItems v env { st with fetchLog := st.fetchLog ++ [u] } rid rest).1,
             { item with image := some (fallbackUrl v rid item.id) }
               :: (processItems v env { st with fetchLog := st.fetchLog ++ [u] } rid rest).2) := by
  have hs : (u == "") = false := by simp [hne]
  have ha := upload_throw_store env st rid (jsShow item.id) u hthrow
  have hpi : processItem v env st rid item
      = ({ st with fetchLog := st.fetchLog ++ [u] },
         { item with image := some (fallbackUrl v rid item.id) }) := by
    cases hu : uploadImageToS3 env st rid (jsShow item.id) u with
    | mk a b =>
      rw [hu] at ha hthrow
      simp at hthrow
      subst hthrow
      simp at ha
      subst ha
      simp [processItem, himg, hs, hu]
  refine ⟨hpi, rfl, rfl, rfl, ?_⟩
  simp [processItems, hpi]

/-- Witness for the relocation-failure theorem: a failing fetch on the
example item, with one further item still processed afterwards. -/
theorem relocation_failure_fallback_witness :
    itemW.image = some "http://ex.com/a.png"
      ∧ ("http://ex.com/a.png" : String) ≠ ""
      ∧ (uploadImageToS3 envFail store0 "42" (jsShow itemW.id) "http://ex.com/a.png").2 = none
      ∧ (processItem .A envFail store0 "42" itemW
            = ({ store0 with fetchLog := store0.fetchLog ++ ["http://ex.com/a.png"] },
               { itemW with image := some (fallbackUrl .A "42" itemW.id) })
          ∧ ({ store0 with fetchLog := store0.fetchLog ++ ["http://ex.com/a.png"] } : Store).objects
              = store0.objects
          ∧ fallbackUrl .A "42" itemW.id = s3Url (s3Key "42" (jsShow itemW.id))
          ∧ fallbackUrl .B "42" itemW.id = PLACEHOLDER_URL
          ∧ processItems .A envFail store0 "42" (itemW :: [itemNoImage])
              = ((processItems .A envFail
                    { store0 with fetchLog := store0.fetchLog ++ ["http://ex.com/a.png"] }
                    "42" [itemNoImage]).1,
                 { itemW with image := some (fallbackUrl .A "42" itemW.id) }
                   :: (processItems .A envFail
                        { store0 with fetchLog := store0.fetchLog ++ ["http://ex.com/a.png"] }
                        "42" [itemNoImage]).2)) :=
  ⟨rfl, by decide, rfl,
    relocation_failure_fallback .A envFail store0 "42" itemW "http://ex.com/a.png" [itemNoImage]
      rfl (by decide) rfl⟩

/-- C4: for every item whose `image` is empty or absent, the store is
completely untouched (no fetch is logged, no object written) and the
`image` is set directly to the fallback value of the variant. -/
theorem no_image_direct_fallback (v : Variant) (env : Env) (st : Store)
    (rid : String) (item : Item)
    (h : truthy item.image = false) :
    processItem v env st rid item
        = (st, { item with image := some (fallbackUrl v rid item.id) })
      ∧ fallbackUrl .A rid item.id = s3Url (s3Key rid (jsShow item.id))
      ∧ fallbackUrl .B rid item.id = PLACEHOLDER_URL := by
  refine ⟨?_, rfl, rfl⟩
  unfold processItem
  cases him : item.image with
  | none => rfl
  | some s =>
    rw [him] at h
    simp [truthy] at h
    simp [h]

/-- Witness for the direct-fallback theorem on the example item with a
`null` image. -/
theorem no_image_direct_fallback_witness :
    truthy itemNoImage.image = false
      ∧ (processItem .A envOk store0 "42" itemNoImage
            = (store0, { itemNoImage with image := some (fallbackUrl .A "42" itemNoImage.id) })
          ∧ fallbackUrl .A "42" itemNoImage.id = s3Url (s3Key "42" (jsShow itemNoImage.id))
          ∧ fallbackUrl .B "42" itemNoImage.id = PLACEHOLDER_URL) :=
  ⟨rfl, no_image_direct_fallback .A envOk store0 "42" itemNoImage rfl⟩

/-- C5: for every processed item, every field other than `image` (its
`id` and all other fields) is carried into the new item unchanged, on the
success, failure and skip paths alike. -/
theorem non_image_fields_preserved (v : Variant) (env : Env) (st : Store)
    (rid : String) (item : Item) :
    (processItem v env st rid item).2.id = item.id
      ∧ (processItem v env st rid item).2.other = item.other :=
  ⟨processItem_id v env st rid item, processItem_other v env st rid item⟩

/-- C6: for a document passing the shape check whose update succeeds,
every item of the persisted items sequence has a non-empty `image`
pointing at the fixed bucket: either a URL with the key pattern
`{restaurantId}/{itemId-derived key}` or the shared placeholder; and the
persisted collection is exactly the one-document update with the new
items. -/
theorem touched_doc_invariant (v : Variant) (env : Env) (w : World) (doc : Doc)
    (l : List Item) (it : Item)
    (hrid : truthy doc.restaurantId = true) (hitems : doc.items = some l)
    (hupd : env.updateOk doc._id = true)
    (hmem : it ∈ (processItems v env w.store (jsShow doc.restaurantId) l).2) :
    (∃ u, it.image = some u ∧ u ≠ ""
        ∧ ((∃ i, u = s3Url (s3Key (jsShow doc.restaurantId) i)) ∨ u = PLACEHOLDER_URL))
      ∧ (processDocument v env w doc).1.coll
          = updateFirst w.coll doc._id
              (processItems v env w.store (jsShow doc.restaurantId) l).2
      ∧ (processDocument v env w doc).2 = false := by
  have hpd : processDocument v env w doc
      = ({ w with store := (processItems v env w.store (jsShow doc.restaurantId) l).1,
                  coll := updateFirst w.coll doc._id
                    (processItems v env w.store (jsShow doc.restaurantId) l).2 }, false) := by
    unfold processDocument
    rw [hitems, hrid]
    simp [hupd]
  exact ⟨processItems_shape v env (jsShow doc.restaurantId) l w.store it hmem,
    by rw [hpd], by rw [hpd]⟩

/-- Witness for the touched-document invariant on the specification's
example document. -/
theorem touched_doc_invariant_witness :
    truthy docW.restaurantId = true
      ∧ docW.items = some [itemW, itemNoImage]
      ∧ envOk.updateOk docW._id = true
      ∧ (⟨some "1",
          some "https://gobbl-restaurant-images-bucket.s3.ap-south-1.amazonaws.com/42/42-1.jpg",
          [("name", "Dosa")]⟩ : Item)
          ∈ (processItems .A envOk world0.store (jsShow docW.restaurantId) [itemW, itemNoImage]).2
      ∧ ((∃ u, (⟨some "1",
            some "https://gobbl-restaurant-images-bucket.s3.ap-south-1.amazonaws.com/42/42-1.jpg",
            [("name", "Dosa")]⟩ : Item).image = some u ∧ u ≠ ""
            ∧ ((∃ i, u = s3Url (s3Key (jsShow docW.restaurantId) i)) ∨ u = PLACEHOLDER_URL))
        ∧ (processDocument .A envOk world0 docW).1.coll
            = updateFirst world0.coll docW._id
                (processItems .A envOk world0.store (jsShow docW.restaurantId) [itemW, itemNoImage]).2
        ∧ (processDocument .A envOk world0 docW).2 = false) :=
  ⟨rfl, rfl, rfl, by decide,
    touched_doc_invariant .A envOk world0 docW [itemW, itemNoImage]
      ⟨some "1",
        some "https://gobbl-restaurant-images-bucket.s3.ap-south-1.amazonaws.com/42/42-1.jpg",
        [("name", "Dosa")]⟩
      rfl rfl rfl (by decide)⟩

/-- C7: the driver's iteration is never aborted by one document's
failure: running the driver over a concatenation always continues into
the second part, and a document whose processing throws contributes
exactly one logged error before the driver moves on. -/
theorem driver_never_aborts (v : Variant) (env : Env) (w : World)
    (xs ys : List Doc) (d : Doc)
    (hthrow : (processDocument v env w d).2 = true) :
    runDriver v env w (xs ++ ys) = runDriver v env (runDriver v env w xs) ys
      ∧ driverStep v env w d
          = { (processDocument v env w d).1 with
              errors := (processDocument v env w d).1.errors ++ [docErrMsg d._id] } := by
  constructor
  · simp [runDriver, List.foldl_append]
  · simp [driverStep, hthrow]

/-- Witness for the never-aborts theorem: an environment whose document
updates all throw. -/
theorem driver_never_aborts_witness :
    (processDocument .A envNoUpdate world0 docW).2 = true
      ∧ (runDriver .A envNoUpdate world0 ([docBad] ++ [docW])
            = runDriver .A envNoUpdate (runDriver .A envNoUpdate world0 [docBad]) [docW]
        ∧ driverStep .A envNoUpdate world0 docW
            = { (processDocument .A envNoUpdate world0 docW).1 with
                errors := (processDocument .A envNoUpdate world0 docW).1.errors
                  ++ [docErrMsg docW._id] }) :=
  ⟨by decide,
    driver_never_aborts .A envNoUpdate world0 [docBad] [docW] docW (by decide)⟩

/-- C8: the migration is idempotent on image URLs in variant A — the
URL written for an item is determined only by the ids and the fixed
bucket and region, so re-processing an already-processed items list
yields the same image URLs. -/
theorem migration_images_idempotent (env1 env2 : Env) (st1 st2 : Store)
    (rid : String) (items : List Item) :
    ((processItems .A env2 st2 rid ((processItems .A env1 st1 rid items).2)).2).map Item.image
        = ((processItems .A env1 st1 rid items).2).map Item.image
      ∧ ((processItems .A env1 st1 rid items).2).map Item.image
          = items.map (fun it => some (s3Url (s3Key rid (jsShow it.id)))) := by
  have h1 := processItems_images_A env1 rid items st1
  refine ⟨?_, h1⟩
  rw [processItems_images_A env2 rid ((processItems .A env1 st1 rid items).2) st2, h1]
  have hmm : ((processItems .A env1 st1 rid items).2).map
        (fun it => some (s3Url (s3Key rid (jsShow it.id))))
      = (((processItems .A env1 st1 rid items).2).map Item.id).map
          (fun i => some (s3Url (s3Key rid (jsShow i)))) := by
    rw [List.map_map]
    rfl
  rw [hmm, processItems_ids, List.map_map]
  rfl

/-- C9: the code diverges from the claim. Variant B's driver loop throws
before yielding anything, so for every collection state the updater
receives no documents, while the aggregation pipeline it was meant to
iterate denotes the post-skip projected documents — already non-empty on
the concrete 102-document collection `coll102`, where the two differ. -/
theorem variantB_driver_never_reaches_updater (docs : List Doc) :
    variantB_yielded docs = []
      ∧ aggregateSkipProject coll102 = [project docW]
      ∧ variantB_yielded coll102 ≠ aggregateSkipProject coll102 := by
  have h2 : aggregateSkipProject coll102 = [project docW] := by decide
  refine ⟨rfl, h2, ?_⟩
  simp [h2, variantB_yielded]

/-- C10: for an item whose `id` is absent, processing (variant A) does
not fail and performs no validation: the rewritten URL and any object key
written for the item embed the literal text `undefined`, i.e.
`{restaurantId}/{restaurantId}-undefined.jpg`, on the success and the
fallback path alike. -/
theorem absent_id_embeds_undefined (env : Env) (st : Store) (rid : String)
    (item : Item) (o : S3Object)
    (hid : item.id = none)
    (hmem : o ∈ (processItem .A env st rid item).1.objects) :
    jsShow item.id = "undefined"
      ∧ (processItem .A env st rid item).2.image = some (s3Url (s3Key rid "undefined"))
      ∧ s3Key rid "undefined" = rid ++ "/" ++ rid ++ "-undefined.jpg"
      ∧ (o ∈ st.objects ∨ o.key = s3Key rid "undefined") := by
  have hshow : jsShow item.id = "undefined" := by rw [hid]; rfl
  have hk : s3Key rid "undefined" = rid ++ "/" ++ rid ++ "-undefined.jpg" := by
    unfold s3Key
    rw [String.append_assoc (rid ++ "/" ++ rid) "-" "undefined"]
    rw [(by decide : ("-" ++ "undefined" : String) = "-undefined")]
    rw [String.append_assoc (rid ++ "/" ++ rid) "-undefined" ".jpg"]
    rw [(by decide : ("-undefined" ++ ".jpg" : String) = "-undefined.jpg")]
  refine ⟨hshow, ?_, hk, ?_⟩
  · rw [processItem_image_A, hshow]
  · have hobj := processItem_objects .A env st rid item o hmem
    rw [hshow] at hobj
    exact hobj

/-- Witness for the absent-id theorem: the object actually written for an
id-less item sits at the `-undefined.jpg` key. -/
theorem absent_id_embeds_undefined_witness :
    itemNoId.id = none
      ∧ S3Object.mk BUCKET_NAME (s3Key "42" "undefined") [7, 7] "image/jpeg"
          ∈ (processItem .A envOk store0 "42" itemNoId).1.objects
      ∧ (jsShow itemNoId.id = "undefined"
        ∧ (processItem .A envOk store0 "42" itemNoId).2.image
            = some (s3Url (s3Key "42" "undefined"))
        ∧ s3Key "42" "undefined" = "42" ++ "/" ++ "42" ++ "-undefined.jpg"
        ∧ (S3Object.mk BUCKET_NAME (s3Key "42" "undefined") [7, 7] "image/jpeg"
              ∈ store0.objects
          ∨ (S3Object.mk BUCKET_NAME (s3Key "42" "undefined") [7, 7] "image/jpeg").key
              = s3Key "42" "undefined")) :=
  ⟨rfl, by decide,
    absent_id_embeds_undefined envOk store0 "42" itemNoId
      (S3Object.mk BUCKET_NAME (s3Key "42" "undefined") [7, 7] "image/jpeg")
      rfl (by decide)⟩
